import Mathlib

/-!
Verification of `src/systems/cursor-pose-tracking.js` (hubs-for-windows).

The source is a small registry-plus-tick pose synchronizer:

  class CursorPoseTrackingSystem
    constructor: this.pairs = []
    register(object3D, path): this.pairs.push({ object3D, path })
    unregister(object3D): this.pairs = this.pairs.filter(p => p.object3D !== object3D)
    tick(): for (let i = 0; i < this.pairs.length; i++)
              const matrix = AFRAME.scenes[0].systems.userinput.get(this.pairs[i].path)
              if (matrix) { o.matrix.copy(matrix);
                            o.matrix.decompose(o.position, o.quaternion, o.scale);
                            o.matrixIsModified = true; o.matrixWorldNeedsUpdate = true }

Embedding choices:
* Scene nodes are identified by a `Nat` id; JS reference identity (`!==`)
  becomes id equality, and the scene is a map from ids to `Object3D` records.
* Matrices, translation/scale vectors and quaternions are opaque type
  parameters `M`, `V`, `Q`; Three.js `Matrix4.decompose` is an opaque
  parameter `dec : M → V × Q × V` (translation, rotation, scale).
* The Input Provider (`AFRAME.scenes[0].systems.userinput`) is
  `Option (String → Option M)`: `none` models the provider chain being
  unavailable (the JS property access would then throw a TypeError, modelled
  as `Except.error ()`), and `get path = none` models a falsy/absent pose.
* `tickLive` models the JS `for` loop literally: each iteration re-reads
  `this.pairs`, so registry operations fired mid-sweep are visible to the
  remainder of the same sweep.  Fuel bounds the unrolling; every use below
  supplies more fuel than the loop can consume.
-/

namespace CursorPoseTracking

/-- The mutable transform state of a Three.js `Object3D`, restricted to the
fields the system touches. -/
structure Object3D (M V Q : Type) where
  matrix : M
  position : V
  quaternion : Q
  scale : V
  matrixIsModified : Bool
  matrixWorldNeedsUpdate : Bool
  deriving DecidableEq

/-- One entry of `this.pairs`: a TrackedLink of node id and input path. -/
structure Pair where
  object3D : Nat
  path : String
  deriving DecidableEq

/-- The system state: the registry (`this.pairs`, in order) together with the
scene, a map from node ids to node transform states. -/
structure SystemState (M V Q : Type) where
  pairs : List Pair
  nodes : Nat → Object3D M V Q

variable {M V Q : Type}

/-- `register(object3D, path)`: `this.pairs.push({ object3D, path })`. -/
def register (o : Nat) (p : String) (s : SystemState M V Q) : SystemState M V Q :=
  { s with pairs := s.pairs ++ [⟨o, p⟩] }

/-- `unregister(object3D)`:
`this.pairs = this.pairs.filter(p => p.object3D !== object3D)`. -/
def unregister (o : Nat) (s : SystemState M V Q) : SystemState M V Q :=
  { s with pairs := s.pairs.filter (fun q => q.object3D != o) }

/-- The body of the `if (matrix)` branch: `o.matrix.copy(matrix)`, then
`o.matrix.decompose(o.position, o.quaternion, o.scale)`, then both dirty
flags set.  Every touched field is overwritten, so the old node value does
not appear. -/
def applyMatrix (dec : M → V × Q × V) (T : M) : Object3D M V Q :=
  ⟨T, (dec T).1, (dec T).2.1, (dec T).2.2, true, true⟩

/-- One loop iteration of `tick()` on the scene, given an available provider
`get`: query the provider at the link's path and, if a matrix comes back,
overwrite that link's node. -/
def stepNode (get : String → Option M) (dec : M → V × Q × V)
    (nodes : Nat → Object3D M V Q) (pr : Pair) : Nat → Object3D M V Q :=
  match get pr.path with
  | none => nodes
  | some T => Function.update nodes pr.object3D (applyMatrix dec T)

/-- The `tick()` sweep over a list of links.  The provider chain is resolved
inside the loop body, so with `ui = none` the first iteration throws
(`Except.error ()`) and an empty list returns without touching it. -/
def tickAux (ui : Option (String → Option M)) (dec : M → V × Q × V) :
    List Pair → (Nat → Object3D M V Q) → Except Unit (Nat → Object3D M V Q)
  | [], nodes => .ok nodes
  | pr :: rest, nodes =>
    match ui with
    | none => .error ()
    | some get => tickAux ui dec rest (stepNode get dec nodes pr)

/-- `tick()`: sweep the current registry, producing the new scene (or the
thrown TypeError when the provider is unavailable and a link is registered).
The registry itself is not changed by a tick. -/
def tick (ui : Option (String → Option M)) (dec : M → V × Q × V)
    (s : SystemState M V Q) : Except Unit (SystemState M V Q) :=
  (tickAux ui dec s.pairs s.nodes).map (fun ns => { s with nodes := ns })

/-- The error-free sweep: `tick()` with an available provider `get`. -/
def tickOk (get : String → Option M) (dec : M → V × Q × V) :
    List Pair → (Nat → Object3D M V Q) → (Nat → Object3D M V Q)
  | [], nodes => nodes
  | pr :: rest, nodes => tickOk get dec rest (stepNode get dec nodes pr)

/-- A registry operation that external code could fire while the sweep is in
progress. -/
inductive RegOp where
  | reg (o : Nat) (path : String)
  | unreg (o : Nat)
  deriving DecidableEq

/-- Effect of a mid-sweep registry operation on `this.pairs` (push for
register, filter for unregister), exactly as `register`/`unregister` act. -/
def applyOp (ps : List Pair) : RegOp → List Pair
  | .reg o p => ps ++ [⟨o, p⟩]
  | .unreg o => ps.filter (fun q => q.object3D != o)

/-- The JS loop `for (let i = 0; i < this.pairs.length; i++)` with mid-sweep
registry operations: both `this.pairs.length` and `this.pairs[i]` are
re-read from the current registry on every iteration, and the operations
`sched i` fire after the body of iteration `i`.  `fuel` bounds the
unrolling; callers pass more fuel than iterations performed. -/
def tickLive (ui : Option (String → Option M)) (dec : M → V × Q × V)
    (sched : Nat → List RegOp) :
    Nat → Nat → List Pair → (Nat → Object3D M V Q) →
    Except Unit (List Pair × (Nat → Object3D M V Q))
  | 0, _, ps, nodes => .ok (ps, nodes)
  | fuel + 1, i, ps, nodes =>
    if h : i < ps.length then
      match ui with
      | none => .error ()
      | some get =>
        tickLive ui dec sched fuel (i + 1)
          ((sched i).foldl applyOp ps)
          (stepNode get dec nodes (ps.get ⟨i, h⟩))
    else .ok (ps, nodes)

/-! ### Concrete instantiations used by witnesses and counterexamples

The opaque matrix/vector/quaternion types are instantiated with `Nat`, and the
opaque Three.js decomposition with an arbitrary injective-looking function;
nothing below depends on their numeric meaning. -/

/-- A concrete stand-in for `Matrix4.decompose` on the `Nat` instantiation. -/
def decN : Nat → Nat × Nat × Nat := fun t => (t, t + 1, t + 2)

/-- A concrete node in its initial state (both dirty flags clear). -/
def node0 : Object3D Nat Nat Nat := ⟨0, 0, 0, 0, false, false⟩

/-- Provider mapping the same node's two registered paths to distinct
matrices. -/
def getC1 : String → Option Nat :=
  fun p => if p = "a" then some 1 else if p = "b" then some 2 else none

/-- A state in which node 0 is registered twice, under paths "a" and "b". -/
def sC1 : SystemState Nat Nat Nat := ⟨[⟨0, "a"⟩, ⟨0, "b"⟩], fun _ => node0⟩

/-- Provider for the C1 witness. -/
def getW1 : String → Option Nat := fun p => if p = "c" then some 9 else none

/-- State for the C1 witness: one link, node 2 under path "c". -/
def sW1 : SystemState Nat Nat Nat := ⟨[⟨2, "c"⟩], fun _ => node0⟩

/-- A state with one registered link, for exercising an unavailable provider. -/
def sC2 : SystemState Nat Nat Nat := ⟨[⟨0, "a"⟩], fun _ => node0⟩

/-- Another one-link state, for the C2 witness. -/
def sW2 : SystemState Nat Nat Nat := ⟨[⟨3, "x"⟩], fun _ => node0⟩

/-- Provider for the C3 scenario: only the mid-sweep-registered path "b" has
a pose. -/
def getC3 : String → Option Nat := fun p => if p = "b" then some 7 else none

/-- Mid-sweep schedule: after loop iteration 0, external code registers
node 1 under path "b". -/
def schedC3 : Nat → List RegOp := fun i => if i = 0 then [.reg 1 "b"] else []

/-- A two-link state used by the C6 and C9 witnesses. -/
def sW6 : SystemState Nat Nat Nat := ⟨[⟨0, "a"⟩, ⟨1, "b"⟩], fun _ => node0⟩

/-- Provider for the C7 witness: paths "a" and "b" give distinct matrices. -/
def getW7 : String → Option Nat :=
  fun p => if p = "a" then some 3 else if p = "b" then some 4 else none

/-! ### Helper lemmas -/

theorem tickAux_some (get : String → Option M) (dec : M → V × Q × V)
    (ps : List Pair) (nodes : Nat → Object3D M V Q) :
    tickAux (some get) dec ps nodes = .ok (tickOk get dec ps nodes) := by
  induction ps generalizing nodes with
  | nil => rfl
  | cons pr rest ih => simp [tickAux, tickOk, ih]

theorem tickOk_append (get : String → Option M) (dec : M → V × Q × V)
    (xs ys : List Pair) (nodes : Nat → Object3D M V Q) :
    tickOk get dec (xs ++ ys) nodes = tickOk get dec ys (tickOk get dec xs nodes) := by
  induction xs generalizing nodes with
  | nil => rfl
  | cons pr rest ih => simp [tickOk, ih]

theorem tickOk_preserve (get : String → Option M) (dec : M → V × Q × V)
    (ys : List Pair) (nodes : Nat → Object3D M V Q) (n : Nat)
    (h : ∀ q ∈ ys, q.object3D = n → get q.path = none) :
    tickOk get dec ys nodes n = nodes n := by
  induction ys generalizing nodes with
  | nil => rfl
  | cons pr rest ih =>
    have hrest : ∀ q ∈ rest, q.object3D = n → get q.path = none := by
      intro q hq; exact h q (List.mem_cons_of_mem _ hq)
    rw [tickOk, ih _ hrest]
    unfold stepNode
    cases hget : get pr.path with
    | none => rfl
    | some T =>
      have hne : pr.object3D ≠ n := by
        intro he
        exact Option.noConfusion (hget ▸ h pr (List.mem_cons_self _ _) he)
      exact Function.update_noteq (Ne.symm hne) _ _

theorem tickLive_step (get : String → Option M) (dec : M → V × Q × V)
    (sched : Nat → List RegOp) (fuel i : Nat) (ps : List Pair)
    (nodes : Nat → Object3D M V Q) (h : i < ps.length) :
    tickLive (some get) dec sched (fuel + 1) i ps nodes =
      tickLive (some get) dec sched fuel (i + 1)
        ((sched i).foldl applyOp ps) (stepNode get dec nodes (ps.get ⟨i, h⟩)) := by
  rw [tickLive, dif_pos h]

theorem tickLive_done (ui : Option (String → Option M)) (dec : M → V × Q × V)
    (sched : Nat → List RegOp) (fuel i : Nat) (ps : List Pair)
    (nodes : Nat → Object3D M V Q) (h : ¬ i < ps.length) :
    tickLive ui dec sched (fuel + 1) i ps nodes = .ok (ps, nodes) := by
  rw [tickLive, dif_neg h]

/-! ### Claims -/

/-- C1 (counterexample): with node 0 registered under both "a" and "b", and
the provider mapping "a" to matrix 1 and "b" to matrix 2, the link
(0, "a") receives transform 1 from the provider, yet after `tick()` node 0's
local matrix is 2, not 1 — the later link for the same node overwrote it, so
the claim's universal statement fails. -/
theorem C1_counterexample :
    ((⟨0, "a"⟩ : Pair) ∈ sC1.pairs) ∧ getC1 "a" = some 1 ∧
    (tick (some getC1) decN sC1).toOption.map (fun u => (u.nodes 0).matrix) = some 2 ∧
    (tick (some getC1) decN sC1).toOption.map (fun u => (u.nodes 0).matrix) ≠ some 1 := by
  refine ⟨by decide, by decide, rfl, by decide⟩

/-- C1 (amended): for every registered link whose sourceId the provider maps
to a transform T, provided no later link in the registry for the same node
also receives a transform this tick, after `tick()` that link's node has its
local matrix equal to T, its translation/rotation/scale equal to the
decomposition of T, and both dirty flags set to true. -/
theorem C1_tick_applies_transform_of_last_link
    (get : String → Option M) (dec : M → V × Q × V) (s : SystemState M V Q)
    (xs ys : List Pair) (n : Nat) (path : String) (T : M)
    (hp : s.pairs = xs ++ ⟨n, path⟩ :: ys)
    (hT : get path = some T)
    (hlast : ∀ q ∈ ys, q.object3D = n → get q.path = none) :
    (tick (some get) dec s).toOption.map (fun u => u.nodes n) =
      some ⟨T, (dec T).1, (dec T).2.1, (dec T).2.2, true, true⟩ := by
  have key : tickOk get dec s.pairs s.nodes n = applyMatrix dec T := by
    rw [hp, show xs ++ (⟨n, path⟩ : Pair) :: ys = (xs ++ [⟨n, path⟩]) ++ ys by simp,
      tickOk_append, tickOk_append, tickOk_preserve get dec ys _ n hlast]
    simp [tickOk, stepNode, hT]
  rw [tick, tickAux_some]
  simp [Except.toOption, Except.map, key, applyMatrix]

/-- C1 (witness): the amended theorem at a concrete one-link registry. -/
theorem C1_witness :
    (tick (some getW1) decN sW1).toOption.map (fun u => u.nodes 2) =
      some ⟨9, (decN 9).1, (decN 9).2.1, (decN 9).2.2, true, true⟩ :=
  C1_tick_applies_transform_of_last_link getW1 decN sW1 [] [] 2 "c" 9 rfl rfl
    (by simp)

/-- C2 (counterexample): with one registered link and the provider chain
unavailable, `tick()` raises (the property access throws) instead of
completing; the claim's "completes without raising" fails. -/
theorem C2_counterexample :
    sC2.pairs ≠ [] ∧ tick (none : Option (String → Option Nat)) decN sC2 = .error () :=
  ⟨by decide, rfl⟩

/-- C2 (amended): when the Input Provider is unavailable, `tick()` completes
without raising (and mutates nothing) only when the registry is empty; with
at least one registered link it raises before mutating any node.
Unavailability is not treated as absent-for-every-source. -/
theorem C2_tick_provider_unavailable (dec : M → V × Q × V) (s : SystemState M V Q) :
    (s.pairs = [] → tick (none : Option (String → Option M)) dec s = .ok s) ∧
    (s.pairs ≠ [] → tick (none : Option (String → Option M)) dec s = .error ()) := by
  obtain ⟨ps, nodes⟩ := s
  cases ps with
  | nil => exact ⟨fun _ => rfl, fun h => absurd rfl h⟩
  | cons pr rest => exact ⟨fun h => List.noConfusion h, fun _ => rfl⟩

/-- C2 (witness): the amended theorem at a concrete one-link registry. -/
theorem C2_witness : tick (none : Option (String → Option Nat)) decN sW2 = .error () :=
  (C2_tick_provider_unavailable decN sW2).2 (by decide)

/-- C3 (counterexample): starting from registry [(0, "a")], a register of
node 1 under "b" fired after loop iteration 0 is processed by the same
sweep — the live loop re-reads `this.pairs`, so node 1's matrix is set to 7
and its dirty flag raised this very tick, whereas sweeping the
start-of-sweep snapshot leaves node 1 untouched.  A mid-sweep registration
does change which links the current tick processes. -/
theorem C3_counterexample :
    (tickLive (some getC3) decN schedC3 5 0 [⟨0, "a"⟩] (fun _ => node0)).toOption.map
        (fun r => ((r.2 1).matrix, (r.2 1).matrixIsModified)) = some (7, true) ∧
    node0.matrixIsModified = false ∧
    tickOk getC3 decN [⟨0, "a"⟩] (fun _ => node0) 1 = node0 := by
  refine ⟨rfl, rfl, rfl⟩

/-- C3 (amended): `tick()` iterates the registry live, re-reading
`this.pairs` on every iteration, so a register performed while the sweep is
in progress appends a link that the same tick still processes (here: the
mid-sweep-registered node ends the tick with its pose applied); registry
changes made during the sweep can affect the current tick, not only the
next. -/
theorem C3_tick_iterates_live
    (get : String → Option M) (dec : M → V × Q × V)
    (nodes : Nat → Object3D M V Q) (o o2 : Nat) (pa pb : String) (T : M)
    (hb : get pb = some T) :
    (tickLive (some get) dec (fun i => if i = 0 then [.reg o2 pb] else []) 3 0
        [⟨o, pa⟩] nodes).toOption.map (fun r => (r.1, r.2 o2)) =
      some ([⟨o, pa⟩, ⟨o2, pb⟩], applyMatrix dec T) := by
  rw [tickLive_step get dec _ 2 0 [⟨o, pa⟩] nodes (by simp)]
  simp only [List.foldl, applyOp, if_pos rfl, List.singleton_append, Nat.zero_add]
  rw [tickLive_step get dec _ 1 1 [⟨o, pa⟩, ⟨o2, pb⟩] _ (by simp)]
  simp only [List.foldl, Nat.reduceAdd, Nat.one_ne_zero, if_false, reduceIte]
  rw [tickLive_done _ dec _ 0 2 [⟨o, pa⟩, ⟨o2, pb⟩] _ (by simp)]
  simp [Except.toOption, stepNode, hb, List.get]

/-- C3 (witness): the amended theorem at a concrete input. -/
theorem C3_witness :
    (tickLive (some getC3) decN (fun i => if i = 0 then [.reg 1 "b"] else []) 3 0
        [⟨0, "a"⟩] (fun _ => node0)).toOption.map (fun r => (r.1, r.2 1)) =
      some ([⟨0, "a"⟩, ⟨1, "b"⟩], applyMatrix decN 7) :=
  C3_tick_iterates_live getC3 decN (fun _ => node0) 0 1 "a" "b" 7 rfl

/-- C4: for every node id, path and starting state, `register(N, s)`
immediately followed by `unregister(N)` leaves zero links referencing N in
the registry. -/
theorem C4_register_then_unregister_removes_all
    (s : SystemState M V Q) (n : Nat) (p : String) :
    ((unregister n (register n p s)).pairs.countP (fun q => q.object3D == n)) = 0 := by
  rw [List.countP_eq_zero]
  intro q hq
  have h := (List.mem_filter.mp hq).2
  simpa using h

/-- C5: if the provider returns absent for every sourceId, `tick()` returns
the state unchanged — every registered node's matrix, translation, rotation,
scale and both dirty flags are untouched — and raises no error. -/
theorem C5_tick_all_absent_no_mutation (get : String → Option M)
    (dec : M → V × Q × V) (s : SystemState M V Q)
    (habs : ∀ p, get p = none) :
    tick (some get) dec s = .ok s := by
  have h : ∀ (ps : List Pair) (nodes : Nat → Object3D M V Q),
      tickOk get dec ps nodes = nodes := by
    intro ps
    induction ps with
    | nil => intro nodes; rfl
    | cons pr rest ih => intro nodes; simp [tickOk, stepNode, habs, ih]
  rw [tick, tickAux_some, h]
  rfl

/-- C5 (witness): a provider with no poses leaves a one-link state intact. -/
theorem C5_witness :
    tick (some (fun _ => (none : Option Nat))) decN sC1 = .ok sC1 :=
  C5_tick_all_absent_no_mutation _ decN sC1 (fun _ => rfl)

/-- C6: `unregister(N)` keeps exactly the links whose node id differs from N
(removing all links of N, by id — i.e. identity — comparison), touches no
node, and is a no-op when no link matches. -/
theorem C6_unregister_exact (s : SystemState M V Q) (n : Nat) :
    (∀ q : Pair, q ∈ (unregister n s).pairs ↔ q ∈ s.pairs ∧ q.object3D ≠ n) ∧
    (unregister n s).nodes = s.nodes ∧
    ((∀ q ∈ s.pairs, q.object3D ≠ n) → unregister n s = s) := by
  refine ⟨?_, rfl, ?_⟩
  · intro q
    simp [unregister, List.mem_filter]
  · intro h
    have he : s.pairs.filter (fun q => q.object3D != n) = s.pairs :=
      List.filter_eq_self.mpr (fun q hq => by simpa using h q hq)
    simp [unregister, he]

/-- C6 (witness): on a concrete two-link registry, unregistering node 0
keeps node 1's link, and unregistering an absent node 5 is a no-op. -/
theorem C6_witness :
    ((⟨1, "b"⟩ : Pair) ∈ (unregister 0 sW6).pairs) ∧ unregister 5 sW6 = sW6 :=
  ⟨((C6_unregister_exact sW6 0).1 ⟨1, "b"⟩).mpr ⟨by decide, by decide⟩,
   (C6_unregister_exact sW6 5).2.2 (by decide)⟩

/-- C7: registering the same node under two source ids whose poses are both
available, then ticking, leaves the node with the transform of the second
(later-registered) link — the sweep runs in registration order and the last
write wins. -/
theorem C7_duplicate_registration_last_wins
    (get : String → Option M) (dec : M → V × Q × V) (s : SystemState M V Q)
    (n : Nat) (p1 p2 : String) (T1 T2 : M)
    (_hp : p1 ≠ p2) (h1 : get p1 = some T1) (h2 : get p2 = some T2) :
    (tick (some get) dec (register n p2 (register n p1 s))).toOption.map
      (fun u => u.nodes n) = some (applyMatrix dec T2) := by
  have key : tickOk get dec (s.pairs ++ [⟨n, p1⟩, ⟨n, p2⟩]) s.nodes n =
      applyMatrix dec T2 := by
    rw [tickOk_append]
    simp [tickOk, stepNode, h1, h2]
  rw [tick, tickAux_some]
  simp only [register]
  simp [Except.toOption, Except.map, key]

/-- C7 (witness): the theorem at a concrete double registration of node 0
under "a" (matrix 3) then "b" (matrix 4): the node ends with matrix 4. -/
theorem C7_witness :
    (tick (some getW7) decN (register 0 "b" (register 0 "a" ⟨[], fun _ => node0⟩))).toOption.map
      (fun u => u.nodes 0) = some (applyMatrix decN 4) :=
  C7_duplicate_registration_last_wins getW7 decN ⟨[], fun _ => node0⟩ 0 "a" "b" 3 4
    (by decide) rfl rfl

/-- C8: `register(node, sourceId)` appends exactly one new link at the end
of the registry — its length grows by one — performs no validation (it is a
total function), and has no side effect beyond the append (the scene map is
untouched). -/
theorem C8_register_appends_one (s : SystemState M V Q) (n : Nat) (p : String) :
    (register n p s).pairs = s.pairs ++ [⟨n, p⟩] ∧
    (register n p s).pairs.length = s.pairs.length + 1 ∧
    (register n p s).nodes = s.nodes :=
  ⟨rfl, by simp [register], rfl⟩

/-- C9: `unregister(N)` keeps every link whose node is not N present with
unchanged multiplicity, preserves their relative order (the result is a
sublist of the original registry), and touches no node. -/
theorem C9_unregister_preserves_nonmatching (s : SystemState M V Q) (n : Nat) :
    (unregister n s).pairs.Sublist s.pairs ∧
    (∀ q ∈ s.pairs, q.object3D ≠ n → q ∈ (unregister n s).pairs) ∧
    (∀ q : Pair, q.object3D ≠ n → (unregister n s).pairs.count q = s.pairs.count q) ∧
    (unregister n s).nodes = s.nodes := by
  refine ⟨List.filter_sublist _, ?_, ?_, rfl⟩
  · intro q hq hne
    exact List.mem_filter.mpr ⟨hq, by simpa using hne⟩
  · intro q hne
    exact List.count_filter (by simpa using hne)

/-- C9 (witness): unregistering node 0 from a concrete two-link registry
keeps node 1's link, with its multiplicity intact. -/
theorem C9_witness :
    ((⟨1, "b"⟩ : Pair) ∈ (unregister 0 sW6).pairs) ∧
    (unregister 0 sW6).pairs.count ⟨1, "b"⟩ = sW6.pairs.count ⟨1, "b"⟩ :=
  ⟨(C9_unregister_preserves_nonmatching sW6 0).2.1 ⟨1, "b"⟩ (by decide) (by decide),
   (C9_unregister_preserves_nonmatching sW6 0).2.2.1 ⟨1, "b"⟩ (by decide)⟩

/-- C10: `unregister` is idempotent — a second `unregister(N)` right after a
first leaves the state exactly as after the first. -/
theorem C10_unregister_idempotent (s : SystemState M V Q) (n : Nat) :
    unregister n (unregister n s) = unregister n s := by
  have he : (s.pairs.filter (fun q => q.object3D != n)).filter
      (fun q => q.object3D != n) = s.pairs.filter (fun q => q.object3D != n) :=
    List.filter_eq_self.mpr (fun q hq => (List.mem_filter.mp hq).2)
  simp [unregister, he]

end CursorPoseTracking
